import Mathlib

/-!
Verification development for the probert netlink client
(src/probert/_nl80211module.c and src/probert/_rtnetlinkmodule.c).

The C sources are shallowly embedded: buffers become `List Nat` (byte
values, each < 256 where they come from memory), C `char` arithmetic is
modelled by explicit sign extension (`sbyte`), `uint32 -> int` conversion
by `toInt32`, and the libnl receive loop by explicit list processing with
the NL_SKIP / NL_STOP callback actions.  Python-level effects (the
observer callback, the per-listener captured exception triple, the
CPython convention that a C method signals failure by returning NULL)
are modelled by explicit state passing.  Kernel I/O performed through
libnl (scan dumps, link change requests) is abstracted as function
parameters or recorded in an operation trace, since it is external to
this repository.
-/

/-- Value of a byte read through a (signed) C `char` lvalue on the
primary target (x86-64 Linux): two's-complement sign extension. -/
def sbyte (b : Nat) : Int :=
  if b % 256 < 128 then ((b % 256 : Nat) : Int) else ((b % 256 : Nat) : Int) - 256

/-- Conversion of a `uint32_t` value to a C `int` (two's complement),
as in `int ifidx = nla_get_u32(...)`. -/
def toInt32 (v : Nat) : Int :=
  if v % 4294967296 < 2147483648 then ((v % 4294967296 : Nat) : Int)
  else ((v % 4294967296 : Nat) : Int) - 4294967296

/-- Outcome of the `nl80211_get_ie` scan loop. -/
inductive GetIeOut where
  /-- `return pos`: an element with the requested id starts at this offset. -/
  | found (pos : Nat)
  /-- the loop exited (either `pos + 1 < end` failed or the bounds check broke). -/
  | notFound
  /-- the fuel ran out: the concrete loop performed at least this many iterations. -/
  | diverged
  /-- a byte was read from before the start of the buffer (`pos < 0`). -/
  | oobRead
deriving DecidableEq, Repr

/-- The `while (pos + 1 < end)` loop of `nl80211_get_ie`, with `pos`
kept as a signed offset from `ies` (it is a `char *` in the source and
the step `pos += 2 + pos[1]` is signed-char arithmetic).  `fuel` bounds
the number of iterations we are willing to unfold; the C loop has no
such bound. -/
def getIeLoop (ies : List Nat) (ie : Nat) : Nat → Int → GetIeOut
  | 0, _ => .diverged
  | fuel + 1, pos =>
    if pos + 1 < (ies.length : Int) then
      if pos < 0 then .oobRead
      else
        let b0 := ies.getD pos.toNat 0
        let b1 := ies.getD (pos.toNat + 1) 0
        if pos + 2 + sbyte b1 > (ies.length : Int) then .notFound
        else if b0 % 256 = ie % 256 then .found pos.toNat
        else getIeLoop ies ie fuel (pos + 2 + sbyte b1)
    else .notFound

/-- `nl80211_get_ie(ies, ies_len, ie)` for a non-NULL `ies` of length
`ies.length`, starting at `pos = ies`. -/
def nl80211_get_ie (fuel : Nat) (ies : List Nat) (ie : Nat) : GetIeOut :=
  getIeLoop ies ie fuel 0

/-- Rendering of the `NL80211_BSS_STATUS` u32 value in `extract_ssid`
(`NL80211_BSS_STATUS_AUTHENTICATED = 0`, `ASSOCIATED = 1`,
`IBSS_JOINED = 2`; every other value leaves `cstatus` at "no status"). -/
def bss_status_str (s : Nat) : String :=
  if s % 4294967296 = 1 then "Connected"
  else if s % 4294967296 = 0 then "Authenticated"
  else if s % 4294967296 = 2 then "Joined"
  else "no status"

/-- The parsed nested BSS attribute tree as far as `extract_ssid` reads
it: the `NL80211_BSS_STATUS` u32 (if that attribute is present) and the
`NL80211_BSS_INFORMATION_ELEMENTS` payload bytes (if present). -/
structure BssAttrs where
  status : Option Nat
  informationElements : Option (List Nat)
deriving DecidableEq, Repr

/-- Result of one `extract_ssid` call. -/
inductive ExtractResult where
  /-- the function returned without touching the list (status filter). -/
  | skip
  /-- `(ssid_bytes, cstatus)` was appended to the ssid list. -/
  | append (ssid : List Nat) (status : String)
  /-- `Py_BuildValue("(y#s)", ...)` failed (negative length). -/
  | buildFail
  /-- a NULL pointer was dereferenced (missing IE attribute passed to
  `nla_len`, or `ssid[1]` with `ssid == NULL`). -/
  | nullDeref
  /-- the embedded IE scan ran out of fuel. -/
  | diverged
  /-- the embedded IE scan read out of bounds. -/
  | oobRead
deriving DecidableEq, Repr

/-- The tail of `extract_ssid` from `char *ie = nla_data(...)` on:
`nla_len(NULL)` dereferences NULL when the information-elements
attribute is absent, and `ssid[1]` dereferences NULL when no id-0
element is found. -/
def extract_ssid_ie (fuel : Nat) (ies? : Option (List Nat)) (cstatus : String) : ExtractResult :=
  match ies? with
  | none => .nullDeref
  | some ies =>
    match getIeLoop ies 0 fuel 0 with
    | .diverged => .diverged
    | .oobRead => .oobRead
    | .notFound => .nullDeref
    | .found p =>
      let ssid_len := sbyte (ies.getD (p + 1) 0)
      if ssid_len < 0 then .buildFail
      else .append ((ies.drop (p + 2)).take ssid_len.toNat) cstatus

/-- `extract_ssid(data, p)`: status rendering and the `only_connected`
filter, then SSID extraction from the information elements. -/
def extract_ssid (fuel : Nat) (bss : BssAttrs) (only_connected : Bool) : ExtractResult :=
  match bss.status with
  | some s => extract_ssid_ie fuel bss.informationElements (bss_status_str s)
  | none =>
    if only_connected then .skip
    else extract_ssid_ie fuel bss.informationElements "no status"

/-- SSID bytes produced by an extraction, when one was appended. -/
def extractedSsid : ExtractResult → Option (List Nat)
  | .append s _ => some s
  | _ => none

/-- Claim C2: for a BSS whose SSID information element is the buffer
`[0x00, 0x03, 0xFF, 0x00, 0x41]` (id 0, length 3, payload `FF 00 41`),
`extract_ssid` appends exactly those 3 payload bytes, length-delimited
and copied verbatim — in particular not truncated at the interior null
byte — whenever the status filter lets the entry through. -/
theorem extract_ssid_arbitrary_bytes (st : Option Nat) (oc : Bool) (fuel : Nat)
    (hfuel : 1 ≤ fuel) (hoc : oc = true → st.isSome) :
    extractedSsid (extract_ssid fuel ⟨st, some [0, 3, 255, 0, 65]⟩ oc) = some [255, 0, 65] := by
  obtain ⟨n, rfl⟩ : ∃ n, fuel = n + 1 := ⟨fuel - 1, by omega⟩
  have hie : ∀ c, extract_ssid_ie (n + 1) (some [0, 3, 255, 0, 65]) c = .append [255, 0, 65] c := by
    intro c
    rfl
  cases st with
  | some s => simp [extract_ssid, hie, extractedSsid]
  | none =>
    cases oc with
    | true => simp at hoc
    | false => simp [extract_ssid, hie, extractedSsid]

/-- Witness for `extract_ssid_arbitrary_bytes` at a concrete input
(no status attribute, unrestricted dump, one unit of fuel). -/
theorem extract_ssid_arbitrary_bytes_witness :
    extractedSsid (extract_ssid 1 ⟨none, some [0, 3, 255, 0, 65]⟩ false) = some [255, 0, 65] :=
  extract_ssid_arbitrary_bytes none false 1 (by decide) (by decide)

/-- Claim C3: the information-element scan of `nl80211_get_ie` does NOT
terminate on every buffer.  On the two-byte buffer `[0x01, 0xFE]`
(element id 1, length byte 0xFE) the step `pos += 2 + pos[1]` is
signed-`char` arithmetic: `2 + (-2) = 0`, so the position never
advances and the loop runs forever — for every fuel bound the embedded
loop is still running. -/
theorem nl80211_get_ie_nonterminating :
    ∀ fuel : Nat, nl80211_get_ie fuel [1, 254] 0 = .diverged := by
  intro fuel
  induction fuel with
  | zero => rfl
  | succ n ih =>
    show getIeLoop [1, 254] 0 (n + 1) 0 = .diverged
    rw [getIeLoop]
    norm_num [sbyte]
    exact ih

/-- Claim C4: a BSS entry that carries a status attribute but lacks the
information-elements attribute is NOT skipped: `extract_ssid` reaches
`nla_len(bss[NL80211_BSS_INFORMATION_ELEMENTS])` with a NULL attribute
pointer and dereferences it. -/
theorem extract_ssid_missing_ie_crash :
    ∀ (fuel : Nat) (oc : Bool), extract_ssid fuel ⟨some 1, none⟩ oc = .nullDeref := by
  intro fuel oc
  rfl

/-- Whether `strncmp(a, b, n) == 0` for byte strings `a` and `b`:
compare position by position, stopping equal at a shared NUL byte or
after `n` positions.  `family_handler` always calls this with
`n = a.length` (the attribute's stated length) and with `b` the target
literal including its NUL terminator, so the catch-all case (one string
exhausted early) is never reached on those calls. -/
def strncmp_eq : List Nat → List Nat → Nat → Bool
  | _, _, 0 => true
  | x :: a, y :: b, n + 1 =>
    if x ≠ y then false
    else if x = 0 then true
    else strncmp_eq a b n
  | _, _, _ + 1 => false

/-- The bytes of the C literal "scan", NUL terminator included. -/
def scanZ : List Nat := [115, 99, 97, 110, 0]

/-- The bytes of the C literal "mlme", NUL terminator included. -/
def mlmeZ : List Nat := [109, 108, 109, 101, 0]

/-- The two group ids resolved by `nl_get_multicast_ids`.  In
`listener_start` the backing `struct nl80211_multicast_ids ids` is a
stack variable with NO initializer, so the fields' initial values are
whatever happened to be on the stack. -/
structure nl80211_multicast_ids where
  mlme_id : Int
  scan_id : Int
deriving DecidableEq, Repr

/-- One entry of the `CTRL_ATTR_MCAST_GROUPS` array, as far as
`family_handler` reads it: the name attribute's bytes (of stated
length `name.length`) and the u32 id attribute, each possibly absent. -/
structure McastGroup where
  name : Option (List Nat)
  id : Option Nat
deriving DecidableEq, Repr

/-- Body of the `nla_for_each_nested` loop of `family_handler`: entries
missing either attribute are skipped; otherwise the id is recorded
under "scan" and/or "mlme" according to
`strncmp(name, target, nla_len(name_attr)) == 0`. -/
def process_mcast_group (res : nl80211_multicast_ids) (g : McastGroup) : nl80211_multicast_ids :=
  match g.name, g.id with
  | some name, some gid =>
    let res1 := if strncmp_eq name scanZ name.length then { res with scan_id := toInt32 gid } else res
    if strncmp_eq name mlmeZ name.length then { res1 with mlme_id := toInt32 gid } else res1
  | _, _ => res

/-- `family_handler(msg, res)`: if the reply has no
`CTRL_ATTR_MCAST_GROUPS` attribute it returns without touching `res`;
otherwise it folds `process_mcast_group` over the group entries. -/
def family_handler (groups : Option (List McastGroup)) (res : nl80211_multicast_ids) :
    nl80211_multicast_ids :=
  match groups with
  | none => res
  | some gs => gs.foldl process_mcast_group res

/-- Characterisation of the `strncmp(a, t, a.length) == 0` test used by
`family_handler`, for a NUL-free target `t` (passed with its NUL
terminator appended): it succeeds exactly when `a` is a NUL-free
prefix of `t`, or `a` starts with all of `t` followed by a NUL. -/
theorem strncmp_eq_iff_prefix (t : List Nat) (hz : 0 ∉ t) (a : List Nat) :
    strncmp_eq a (t ++ [0]) a.length = (a.isPrefixOf t || (t ++ [0]).isPrefixOf a) := by
  induction a generalizing t with
  | nil => simp [strncmp_eq, List.isPrefixOf]
  | cons x a ih =>
    cases t with
    | nil =>
      simp only [List.nil_append]
      by_cases hx : x = 0
      · subst hx
        simp [strncmp_eq, List.isPrefixOf]
      · simp [strncmp_eq, List.isPrefixOf, hx, Ne.symm hx]
    | cons y t =>
      have hy : y ≠ 0 := fun h => hz (h ▸ List.mem_cons_self y t)
      have hz' : 0 ∉ t := fun h => hz (List.mem_cons_of_mem y h)
      by_cases hxy : x = y
      · subst hxy
        simp [strncmp_eq, List.isPrefixOf, hy, ih t hz']
      · have hyx : ¬y = x := fun h => hxy h.symm
        simp [strncmp_eq, List.isPrefixOf, hxy, hyx]

/-- Claim C9 (amended): for a single-group reply, the id is recorded
for "scan" (resp. "mlme") iff the name attribute's bytes are a NUL-free
prefix of the target name, or start with the NUL-terminated target.
In particular an exact NUL-terminated match records the id, but so do
the empty name and a NUL-free proper prefix such as "sc". -/
theorem group_name_match_characterisation (name : List Nat) (gid : Nat) (m s : Int) :
    (family_handler (some [⟨some name, some gid⟩]) ⟨m, s⟩).scan_id
      = (if name.isPrefixOf [115, 99, 97, 110] || scanZ.isPrefixOf name then toInt32 gid else s)
    ∧ (family_handler (some [⟨some name, some gid⟩]) ⟨m, s⟩).mlme_id
      = (if name.isPrefixOf [109, 108, 109, 101] || mlmeZ.isPrefixOf name then toInt32 gid else m) := by
  have hscan := strncmp_eq_iff_prefix [115, 99, 97, 110] (by decide) name
  have hmlme := strncmp_eq_iff_prefix [109, 108, 109, 101] (by decide) name
  have hs : ([115, 99, 97, 110] ++ [0] : List Nat) = scanZ := by decide
  have hm : ([109, 108, 109, 101] ++ [0] : List Nat) = mlmeZ := by decide
  rw [hs] at hscan
  rw [hm] at hmlme
  constructor
  · simp only [family_handler, List.foldl, process_mcast_group, hscan, hmlme]
    by_cases h1 : (name.isPrefixOf [115, 99, 97, 110] || scanZ.isPrefixOf name) = true
    · by_cases h2 : (name.isPrefixOf [109, 108, 109, 101] || mlmeZ.isPrefixOf name) = true
      · simp [h1, h2]
      · simp [h1, h2]
    · by_cases h2 : (name.isPrefixOf [109, 108, 109, 101] || mlmeZ.isPrefixOf name) = true
      · simp [h1, h2]
      · simp [h1, h2]
  · simp only [family_handler, List.foldl, process_mcast_group, hscan, hmlme]
    by_cases h1 : (name.isPrefixOf [115, 99, 97, 110] || scanZ.isPrefixOf name) = true
    · by_cases h2 : (name.isPrefixOf [109, 108, 109, 101] || mlmeZ.isPrefixOf name) = true
      · simp [h1, h2]
      · simp [h1, h2]
    · by_cases h2 : (name.isPrefixOf [109, 108, 109, 101] || mlmeZ.isPrefixOf name) = true
      · simp [h1, h2]
      · simp [h1, h2]

/-- Counterexample to claim C9 as stated: a multicast-group entry whose
name attribute is EMPTY (stated length 0) records its id 7 for both
"scan" and "mlme" — `strncmp(name, target, 0)` is always 0 — although
the empty byte string is not equal to either target name. -/
theorem group_name_empty_matches :
    family_handler (some [⟨some [], some 7⟩]) ⟨0, 0⟩ = ⟨7, 7⟩
    ∧ ([] : List Nat) ≠ [115, 99, 97, 110] ∧ ([] : List Nat) ≠ [109, 108, 109, 101] := by
  refine ⟨rfl, by decide, by decide⟩

/-- Claim C6: when the reply's group list contains no entry matching
"scan" (here: a single "mlme" entry), `family_handler` never writes
`scan_id`, so after `listener_start`'s resolution step the field still
holds whatever value `g` the uninitialised stack struct started with —
there is no defined "unset" sentinel in the code. -/
theorem missing_group_name_keeps_uninitialised_id (m g : Int) :
    (family_handler (some [⟨some mlmeZ, some 3⟩]) ⟨m, g⟩).scan_id = g := rfl

/-- A Python exception as the listener stores it.  An observer fault is
fetched as the full `(type, value, traceback)` triple by
`PyErr_Fetch`; `maybe_restore` can also format a fresh RuntimeError
from the netlink error code. -/
inductive PyErrVal where
  | fetched (typ val tb : Nat)
  | runtimeError (code : Int)
deriving DecidableEq, Repr

/-- The mutable listener fields the nl80211 dispatcher reads and
writes: the single-slot captured exception (`exc_typ/exc_val/exc_tb`,
here one optional value), the netlink error code `err` written by the
event socket's error/finish/ack handlers, and whether `observer` is
still `Py_None`. -/
structure ListenerState where
  exc : Option PyErrVal
  err : Int
  observerIsNone : Bool
deriving DecidableEq, Repr

/-- The libnl callback actions returned by the handlers in this file. -/
inductive CbAction where
  | ok
  | skip
  | stop
deriving DecidableEq, Repr

/-- One scan-dump result list: `(ssid_bytes, status_string)` pairs. -/
def SsidList := List (List Nat × String)
deriving instance DecidableEq, Repr for SsidList

/-- The argument dictionary passed to `observer.wlan_event`: the
command (kept numeric here; the dict carries
`nl80211_command_to_string(cmd)`, whose rendering no claim in scope
constrains), the interface index, and the optional "ssids" entry
merged in from `extra`. -/
structure WlanEventArg where
  cmd : Nat
  ifindex : Int
  ssids : Option SsidList
deriving DecidableEq, Repr

/-- `observe_wlan_event`: a no-op returning NL_STOP while the fault
slot is occupied or no observer is set; otherwise it invokes the
observer (modelled by `obs`, returning the exception the call raised,
if any), capturing a raised exception into the fault slot with
NL_STOP, and returning NL_SKIP on success.  The third component
records whether the observer was invoked. -/
def observe_wlan_event (obs : WlanEventArg → Option PyErrVal) (st : ListenerState)
    (arg : WlanEventArg) : ListenerState × CbAction × Bool :=
  if st.exc.isSome || st.observerIsNone then (st, .stop, false)
  else
    match obs arg with
    | none => (st, .skip, true)
    | some e => ({ st with exc := some e }, .stop, true)

/-- `nl80211_trigger_scan`'s command code. -/
def NL80211_CMD_TRIGGER_SCAN : Nat := 33

/-- The nl80211 command codes `event_handler` compares against. -/
def NL80211_CMD_NEW_INTERFACE : Nat := 7

/-- `NL80211_CMD_NEW_SCAN_RESULTS` from `enum nl80211_commands`. -/
def NL80211_CMD_NEW_SCAN_RESULTS : Nat := 34

/-- `NL80211_CMD_ASSOCIATE` from `enum nl80211_commands`. -/
def NL80211_CMD_ASSOCIATE : Nat := 38

/-- One datagram on the event socket as far as `event_handler` reads
it: the generic-netlink command and the `NL80211_ATTR_IFINDEX` u32
attribute, if present. -/
structure EventMsg where
  cmd : Nat
  ifindexAttr : Option Nat
deriving DecidableEq, Repr

/-- The `ifidx` local of `event_handler`: `-1` unless the datagram
carries the interface-index attribute, whose u32 value is then
assigned to the C `int`. -/
def event_ifindex (msg : EventMsg) : Int :=
  match msg.ifindexAttr with
  | some v => toInt32 v
  | none => -1

/-- Shared tail of `event_handler`: call `observe_wlan_event` and
report the argument it was invoked with (if it was). -/
def observe_call (obs : WlanEventArg → Option PyErrVal) (st : ListenerState)
    (arg : WlanEventArg) : ListenerState × CbAction × Option WlanEventArg :=
  match observe_wlan_event obs st arg with
  | (st', act, inv) => (st', act, if inv then some arg else none)

/-- `event_handler`: decode `ifidx`; for a strictly positive index and
a "new scan results" command run an unrestricted BSS dump, for
"associate"/"new interface" a connected-only dump (the synchronous
dump over its private socket is abstracted as `dump ifidx
only_connected`, `none` meaning `dump_scan_results` returned NULL, on
which the handler returns NL_STOP without invoking the observer);
then deliver the event. -/
def event_handler (obs : WlanEventArg → Option PyErrVal)
    (dump : Int → Bool → Option SsidList) (st : ListenerState) (msg : EventMsg) :
    ListenerState × CbAction × Option WlanEventArg :=
  let ifidx := event_ifindex msg
  if ifidx > 0 ∧ msg.cmd = NL80211_CMD_NEW_SCAN_RESULTS then
    match dump ifidx false with
    | none => (st, .stop, none)
    | some ssids => observe_call obs st ⟨msg.cmd, ifidx, some ssids⟩
  else if ifidx > 0 ∧ (msg.cmd = NL80211_CMD_ASSOCIATE ∨ msg.cmd = NL80211_CMD_NEW_INTERFACE) then
    match dump ifidx true with
    | none => (st, .stop, none)
    | some ssids => observe_call obs st ⟨msg.cmd, ifidx, some ssids⟩
  else observe_call obs st ⟨msg.cmd, ifidx, none⟩

/-- The `wlan_event` argument `event_handler` builds for a datagram,
assuming the dump (when one is required) succeeds. -/
def event_arg (dump : Int → Bool → Option SsidList) (msg : EventMsg) : WlanEventArg :=
  let ifidx := event_ifindex msg
  ⟨msg.cmd, ifidx,
    if ifidx > 0 ∧ msg.cmd = NL80211_CMD_NEW_SCAN_RESULTS then dump ifidx false
    else if ifidx > 0 ∧ (msg.cmd = NL80211_CMD_ASSOCIATE ∨ msg.cmd = NL80211_CMD_NEW_INTERFACE) then
      dump ifidx true
    else none⟩

/-- The receive loop (`nl_recvmsgs` on the event socket) over the
currently queued datagrams: each is handed to `event_handler`; NL_STOP
ends the loop, anything else continues.  Returns the final listener
state and the arguments the observer was actually invoked with, in
order. -/
def nl_recvmsgs (obs : WlanEventArg → Option PyErrVal)
    (dump : Int → Bool → Option SsidList) :
    ListenerState → List EventMsg → ListenerState × List WlanEventArg
  | st, [] => (st, [])
  | st, msg :: rest =>
    match event_handler obs dump st msg with
    | (st', act, inv) =>
      if act = .stop then (st', inv.toList)
      else
        let r := nl_recvmsgs obs dump st' rest
        (r.1, inv.toList ++ r.2)

/-- What a Python-visible C call hands back: whether it returned the
`Py_None` success value (`true`) or the NULL error marker (`false`),
and the state of the Python error indicator at that moment. -/
structure PyCallResult where
  returnedNone : Bool
  pending : Option PyErrVal
deriving DecidableEq, Repr

/-- `maybe_restore` of `_nl80211module.c`: an occupied fault slot is
cleared and re-raised (NULL return); otherwise, a nonzero `err` makes
it format a pending RuntimeError — but the function still falls
through to `Py_RETURN_NONE`, returning the success value with the
error set. -/
def maybe_restore (st : ListenerState) : ListenerState × PyCallResult :=
  match st.exc with
  | some e => ({ st with exc := none }, ⟨false, some e⟩)
  | none =>
    if st.err = 0 then (st, ⟨true, none⟩)
    else (st, ⟨true, some (.runtimeError st.err)⟩)

/-- `listener_data_ready`: drain the event socket (the queued
datagrams), then `maybe_restore`.  Also returns the observer
invocations made while draining. -/
def listener_data_ready (obs : WlanEventArg → Option PyErrVal)
    (dump : Int → Bool → Option SsidList) (st : ListenerState) (queue : List EventMsg) :
    ListenerState × List WlanEventArg × PyCallResult :=
  match nl_recvmsgs obs dump st queue with
  | (st', args) =>
    match maybe_restore st' with
    | (st'', res) => (st'', args, res)

/-- When every required scan dump succeeds, `event_handler` is exactly
`observe_call` on the argument described by `event_arg`. -/
theorem event_handler_dump_ok (obs : WlanEventArg → Option PyErrVal)
    (dump : Int → Bool → Option SsidList) (hdump : ∀ i oc, dump i oc ≠ none)
    (st : ListenerState) (msg : EventMsg) :
    event_handler obs dump st msg = observe_call obs st (event_arg dump msg) := by
  unfold event_handler event_arg
  by_cases h1 : event_ifindex msg > 0 ∧ msg.cmd = NL80211_CMD_NEW_SCAN_RESULTS
  · simp only [h1, if_true, if_pos]
    cases hd : dump (event_ifindex msg) false with
    | none => exact absurd hd (hdump _ _)
    | some s => simp [hd]
  · simp only [if_neg h1]
    by_cases h2 : event_ifindex msg > 0
        ∧ (msg.cmd = NL80211_CMD_ASSOCIATE ∨ msg.cmd = NL80211_CMD_NEW_INTERFACE)
    · simp only [if_pos h2]
      cases hd : dump (event_ifindex msg) true with
      | none => exact absurd hd (hdump _ _)
      | some s => simp [hd]
    · simp only [if_neg h2]

/-- Receive-loop behaviour when the observer succeeds on each event of
`xs` and then raises `ex` on `ef`: the loop delivers `xs` and `ef`
only, captures `ex` into the fault slot, and stops — the events of
`ys` are never handed to the observer. -/
theorem nl_recvmsgs_fault (obs : WlanEventArg → Option PyErrVal)
    (dump : Int → Bool → Option SsidList) (hdump : ∀ i oc, dump i oc ≠ none)
    (ex : PyErrVal) (xs : List EventMsg) (ef : EventMsg) (ys : List EventMsg)
    (st : ListenerState)
    (hexc : st.exc = none) (hobs : st.observerIsNone = false)
    (hxs : ∀ m ∈ xs, obs (event_arg dump m) = none)
    (hef : obs (event_arg dump ef) = some ex) :
    nl_recvmsgs obs dump st (xs ++ ef :: ys)
      = ({ st with exc := some ex }, xs.map (event_arg dump) ++ [event_arg dump ef]) := by
  induction xs with
  | nil =>
    simp only [List.nil_append, List.map_nil]
    rw [nl_recvmsgs, event_handler_dump_ok obs dump hdump]
    unfold observe_call observe_wlan_event
    simp [hexc, hobs, hef]
  | cons x xs ih =>
    have hx : obs (event_arg dump x) = none := hxs x (List.mem_cons_self x xs)
    have ih' := ih (fun m hm => hxs m (List.mem_cons_of_mem x hm))
    simp only [List.cons_append, List.map_cons]
    rw [nl_recvmsgs, event_handler_dump_ok obs dump hdump]
    unfold observe_call observe_wlan_event
    simp [hexc, hobs, hx, ih']

/-- Claim C1: if the observer raises `ex` on event `ef`, after
succeeding on each event of `xs`, then (1) the receive loop invokes
the observer exactly on `xs` and `ef` — the queued events `ys` behind
the failing one are never delivered — leaving `ex` captured in the
fault slot; (2) the public call that triggered delivery fails
(returns NULL) with exactly the captured exception `ex` re-raised;
(3) the fault slot is cleared by that call; and (4) while the slot is
occupied the dispatcher is a no-op that does not invoke the observer. -/
theorem observer_fault_contained (obs : WlanEventArg → Option PyErrVal)
    (dump : Int → Bool → Option SsidList) (hdump : ∀ i oc, dump i oc ≠ none)
    (ex : PyErrVal) (xs : List EventMsg) (ef : EventMsg) (ys : List EventMsg)
    (st : ListenerState)
    (hexc : st.exc = none) (hobs : st.observerIsNone = false)
    (hxs : ∀ m ∈ xs, obs (event_arg dump m) = none)
    (hef : obs (event_arg dump ef) = some ex) :
    (listener_data_ready obs dump st (xs ++ ef :: ys)).2.1
      = xs.map (event_arg dump) ++ [event_arg dump ef]
    ∧ (listener_data_ready obs dump st (xs ++ ef :: ys)).2.2 = ⟨false, some ex⟩
    ∧ (listener_data_ready obs dump st (xs ++ ef :: ys)).1.exc = none
    ∧ ∀ (st' : ListenerState) (a : WlanEventArg), st'.exc.isSome →
        observe_wlan_event obs st' a = (st', .stop, false) := by
  have h := nl_recvmsgs_fault obs dump hdump ex xs ef ys st hexc hobs hxs hef
  unfold listener_data_ready
  rw [h]
  refine ⟨rfl, rfl, rfl, ?_⟩
  intro st' a h'
  unfold observe_wlan_event
  simp [h']

/-- A concrete observer that raises exactly on interface index 2. -/
def obsFailAt2 : WlanEventArg → Option PyErrVal :=
  fun a => if a.ifindex = 2 then some (.fetched 11 12 13) else none

/-- A concrete scan dump that always succeeds with an empty list. -/
def dumpEmpty : Int → Bool → Option SsidList := fun _ _ => some []

/-- Witness for `observer_fault_contained`: three queued
new-scan-results datagrams for interfaces 1, 2, 3; the observer raises
on the second, so the third is never delivered and `data_ready` fails
with exactly the captured exception. -/
theorem observer_fault_contained_witness :
    (listener_data_ready obsFailAt2 dumpEmpty ⟨none, 0, false⟩
        [⟨34, some 1⟩, ⟨34, some 2⟩, ⟨34, some 3⟩]).2.1
      = [⟨34, 1, some []⟩, ⟨34, 2, some []⟩]
    ∧ (listener_data_ready obsFailAt2 dumpEmpty ⟨none, 0, false⟩
        [⟨34, some 1⟩, ⟨34, some 2⟩, ⟨34, some 3⟩]).2.2
      = ⟨false, some (.fetched 11 12 13)⟩
    ∧ (listener_data_ready obsFailAt2 dumpEmpty ⟨none, 0, false⟩
        [⟨34, some 1⟩, ⟨34, some 2⟩, ⟨34, some 3⟩]).1.exc = none := by
  have h := observer_fault_contained obsFailAt2 dumpEmpty
      (fun i oc => by simp [dumpEmpty])
      (.fetched 11 12 13) [⟨34, some 1⟩] ⟨34, some 2⟩ [⟨34, some 3⟩] ⟨none, 0, false⟩
      rfl rfl (by decide) (by decide)
  exact ⟨h.1, h.2.1, h.2.2.1⟩

/-- Claim C5: with the fault slot empty and a nonzero netlink error
code recorded by the receive engine, `maybe_restore` formats the
pending RuntimeError carrying that code but then still executes
`Py_RETURN_NONE`: the call returns the SUCCESS value with the error
indicator set (a missing `return NULL`), instead of failing with that
error as its outcome. -/
theorem maybe_restore_err_returns_py_none :
    maybe_restore ⟨none, -71, false⟩
      = (⟨none, -71, false⟩, ⟨true, some (.runtimeError (-71))⟩) := rfl

/-- Claim C10 (amended): for a datagram whose decoded interface index
is not strictly positive, no scan dump is attempted and the observer
is still invoked, with that decoded index — which is `-1` exactly when
the interface-index attribute is absent (when the attribute is present
with value 0, or with a value whose signed 32-bit reading is negative,
the observer sees that value, not `-1`) — and with no ssids entry. -/
theorem event_handler_nonpositive_ifindex (obs : WlanEventArg → Option PyErrVal)
    (dump : Int → Bool → Option SsidList) (st : ListenerState) (msg : EventMsg)
    (hexc : st.exc = none) (hobs : st.observerIsNone = false)
    (hif : event_ifindex msg ≤ 0) :
    (event_handler obs dump st msg).2.2 = some ⟨msg.cmd, event_ifindex msg, none⟩
    ∧ (msg.ifindexAttr = none → event_ifindex msg = -1) := by
  constructor
  · have h1 : ¬(event_ifindex msg > 0 ∧ msg.cmd = NL80211_CMD_NEW_SCAN_RESULTS) :=
      fun h => absurd h.1 (not_lt.2 hif)
    have h2 : ¬(event_ifindex msg > 0
        ∧ (msg.cmd = NL80211_CMD_ASSOCIATE ∨ msg.cmd = NL80211_CMD_NEW_INTERFACE)) :=
      fun h => absurd h.1 (not_lt.2 hif)
    unfold event_handler
    simp only [if_neg h1, if_neg h2]
    unfold observe_call observe_wlan_event
    simp only [hexc, hobs, Option.isSome_none, Bool.or_self, Bool.false_eq_true, if_false]
    cases obs ⟨msg.cmd, event_ifindex msg, none⟩ <;> simp
  · intro h
    simp [event_ifindex, h]

/-- An observer that never raises. -/
def obsNoFail : WlanEventArg → Option PyErrVal := fun _ => none

/-- Counterexample to claim C10 as stated: a new-scan-results datagram
whose interface-index attribute is PRESENT with value 0 (a non-positive
value) makes the observer see `ifindex = 0`, not the `-1` sentinel the
claim asserts. -/
theorem event_handler_zero_ifindex_counterexample :
    (event_handler obsNoFail dumpEmpty ⟨none, 0, false⟩ ⟨34, some 0⟩).2.2
      = some ⟨34, 0, none⟩ ∧ (0 : Int) ≠ -1 := by
  exact ⟨rfl, by decide⟩

/-- Witness for `event_handler_nonpositive_ifindex` at a concrete
datagram with the interface-index attribute absent. -/
theorem event_handler_nonpositive_ifindex_witness :
    (event_handler obsNoFail dumpEmpty ⟨none, 0, false⟩ ⟨34, none⟩).2.2
      = some ⟨34, -1, none⟩
    ∧ ((⟨34, none⟩ : EventMsg).ifindexAttr = none → event_ifindex ⟨34, none⟩ = -1) := by
  exact event_handler_nonpositive_ifindex obsNoFail dumpEmpty ⟨none, 0, false⟩ ⟨34, none⟩
    rfl rfl (by decide)

/-- The `_rtnetlink` listener's mutable fields read by its observer
dispatch: the captured exception slot and whether `observer` is
`Py_None`.  (This listener has no `err` field.) -/
structure RtListenerState where
  exc : Option PyErrVal
  observerIsNone : Bool
deriving DecidableEq, Repr

/-- `act2str`: render a cache action, stripping the `NL_ACT_` prefix
(`NL_ACT_UNSPEC = 0 .. NL_ACT_CHANGE = 5`), with a `"???"` fallback. -/
def act2str (act : Nat) : String :=
  if act = 0 then "UNSPEC"
  else if act = 1 then "NEW"
  else if act = 2 then "DEL"
  else if act = 3 then "GET"
  else if act = 4 then "SET"
  else if act = 5 then "CHANGE"
  else "???"

/-- A kernel route object as far as `observe_route_change` reads it:
family / type / table, the destination address (`none` when
`rtnl_route_get_dst` returns NULL, otherwise its bytes — possibly of
length 0), and the output interface index of each next-hop in order. -/
structure Route where
  family : Nat
  rtype : Nat
  rtable : Nat
  dst : Option (List Nat)
  nexthops : List Int
deriving DecidableEq, Repr

/-- The field dictionary passed to `observer.route_change`. -/
structure RouteFields where
  family : Nat
  rtype : Nat
  rtable : Nat
  dst : String
  ifindex : Int
deriving DecidableEq, Repr

/-- `observe_route_change`: a no-op while the fault slot is occupied or
no observer is set; otherwise renders the route (destination as
`"default"` for a NULL or 0-length address, else through `nl_addr2str`,
abstracted as `addr2str`; `ifindex` from the FIRST next-hop only, `-1`
when there are none) and invokes `observer.route_change(act2str act,
fields)`, capturing any raised exception.  The second component is the
invocation made, if any. -/
def observe_route_change (addr2str : List Nat → String)
    (obs : String → RouteFields → Option PyErrVal) (act : Nat) (r : Route)
    (st : RtListenerState) : RtListenerState × Option (String × RouteFields) :=
  if st.exc.isSome || st.observerIsNone then (st, none)
  else
    let cdst : String :=
      match r.dst with
      | none => "default"
      | some a => if a.length = 0 then "default" else addr2str a
    let ifindex : Int :=
      match r.nexthops with
      | [] => -1
      | nh :: _ => nh
    let fields : RouteFields := ⟨r.family, r.rtype, r.rtable, cdst, ifindex⟩
    match obs (act2str act) fields with
    | none => (st, some (act2str act, fields))
    | some e => ({ st with exc := some e }, some (act2str act, fields))

/-- Claim C7: whenever `observe_route_change` invokes the observer,
a route whose destination is absent or 0 bytes long is rendered with
`dst` exactly `"default"`, and a route with at least one next-hop
reports the first next-hop's interface index (further next-hops of a
multi-path route are ignored). -/
theorem route_change_rendering (addr2str : List Nat → String)
    (obs : String → RouteFields → Option PyErrVal) (act : Nat) (r : Route)
    (st : RtListenerState) (hexc : st.exc = none) (hobs : st.observerIsNone = false) :
    (r.dst = none ∨ r.dst = some [] →
      (observe_route_change addr2str obs act r st).2.map (fun p => p.2.dst)
        = some "default")
    ∧ ∀ nh rest, r.nexthops = nh :: rest →
      (observe_route_change addr2str obs act r st).2.map (fun p => p.2.ifindex)
        = some nh := by
  constructor
  · intro hdst
    unfold observe_route_change
    simp only [hexc, hobs, Option.isSome_none, Bool.or_self, Bool.false_eq_true, if_false]
    rcases hdst with h | h <;> rw [h] <;>
      cases obs (act2str act) _ <;> simp
  · intro nh rest hnh
    unfold observe_route_change
    simp only [hexc, hobs, Option.isSome_none, Bool.or_self, Bool.false_eq_true, if_false]
    rw [hnh]
    cases obs (act2str act) _ <;> simp

/-- A concrete route-change observer that never raises. -/
def obsRouteOk : String → RouteFields → Option PyErrVal := fun _ _ => none

/-- Witness for `route_change_rendering`: an IPv4 unicast route in the
main table with no destination prefix and two next-hops (interfaces 5
and 9) renders `dst = "default"` and `ifindex = 5`. -/
theorem route_change_rendering_witness :
    ((observe_route_change (fun _ => "") obsRouteOk 1 ⟨2, 1, 254, none, [5, 9]⟩
        ⟨none, false⟩).2.map (fun p => p.2.dst) = some "default")
    ∧ ((observe_route_change (fun _ => "") obsRouteOk 1 ⟨2, 1, 254, none, [5, 9]⟩
        ⟨none, false⟩).2.map (fun p => p.2.ifindex) = some 5) := by
  have h := route_change_rendering (fun _ => "") obsRouteOk 1 ⟨2, 1, 254, none, [5, 9]⟩
      ⟨none, false⟩ rfl rfl
  exact ⟨h.1 (Or.inl rfl), h.2 5 [9] rfl⟩

/-- `rtnl_link_get(cache, ifindex)`: look the interface up by index in
the live link cache (modelled as an association list index → flags). -/
def rtnl_link_get (cache : List (Int × Nat)) (ifindex : Int) : Option Nat :=
  (cache.find? (fun p => p.1 == ifindex)).map (fun p => p.2)

/-- Socket operations a link-flag mutation can perform, in order. -/
inductive SockOp where
  | socketAlloc
  | connect
  | linkChangeRequest (ifindex : Int) (newFlags : Nat)
deriving DecidableEq, Repr

/-- The errors `set_link_flags` / `unset_link_flags` can report. -/
inductive RtError where
  /-- the RuntimeError "link not found". -/
  | notFound
  /-- the MemoryError from a failed `nl_socket_alloc`. -/
  | allocFailure
  /-- the RuntimeError "nl_connect failed %d". -/
  | connectFailure (code : Int)
  /-- the RuntimeError "rtnl_link_change failed %d". -/
  | changeFailure (code : Int)
deriving DecidableEq, Repr

/-- Common shape of `listener_set_link_flags` and
`listener_unset_link_flags`: cache lookup first (failing with
NotFound before ANY socket work), then allocate and connect a fresh
short-lived socket, apply `newFlags` to the looked-up flags, and issue
the synchronous link-change request.  The kernel-side outcomes are the
parameters `allocOk`, `connectRes`, `changeRes`; the returned trace
lists the socket operations performed. -/
def link_flags_call (newFlags : Nat → Nat → Nat) (cache : List (Int × Nat))
    (allocOk : Bool) (connectRes changeRes : Int) (ifindex : Int) (flags : Nat) :
    Except RtError Unit × List SockOp :=
  match rtnl_link_get cache ifindex with
  | none => (.error .notFound, [])
  | some cur =>
    if !allocOk then (.error .allocFailure, [])
    else if connectRes < 0 then (.error (.connectFailure connectRes), [.socketAlloc, .connect])
    else
      let nf := newFlags cur flags
      if changeRes < 0 then
        (.error (.changeFailure changeRes), [.socketAlloc, .connect, .linkChangeRequest ifindex nf])
      else (.ok (), [.socketAlloc, .connect, .linkChangeRequest ifindex nf])

/-- `listener_set_link_flags`: `rtnl_link_set_flags` ORs the mask in. -/
def listener_set_link_flags (cache : List (Int × Nat)) (allocOk : Bool)
    (connectRes changeRes : Int) (ifindex : Int) (flags : Nat) :
    Except RtError Unit × List SockOp :=
  link_flags_call (fun cur f => cur ||| f) cache allocOk connectRes changeRes ifindex flags

/-- `listener_unset_link_flags`: `rtnl_link_unset_flags` ANDs the
complement of the mask (`l_flags &= ~flags`). -/
def listener_unset_link_flags (cache : List (Int × Nat)) (allocOk : Bool)
    (connectRes changeRes : Int) (ifindex : Int) (flags : Nat) :
    Except RtError Unit × List SockOp :=
  link_flags_call (fun cur f => Nat.ldiff cur f) cache allocOk connectRes changeRes ifindex flags

/-- Claim C8: when the interface index is not in the live link cache,
both `set_link_flags` and `unset_link_flags` fail with the NotFound
error and perform NO socket I/O — the operation trace is empty, so no
request socket is allocated, connected, or sent on. -/
theorem link_flags_not_found_no_io (cache : List (Int × Nat)) (allocOk : Bool)
    (connectRes changeRes : Int) (ifindex : Int) (flags : Nat)
    (h : rtnl_link_get cache ifindex = none) :
    listener_set_link_flags cache allocOk connectRes changeRes ifindex flags
      = (.error .notFound, [])
    ∧ listener_unset_link_flags cache allocOk connectRes changeRes ifindex flags
      = (.error .notFound, []) := by
  constructor
  · unfold listener_set_link_flags link_flags_call
    rw [h]
  · unfold listener_unset_link_flags link_flags_call
    rw [h]

/-- Witness for `link_flags_not_found_no_io`: a cache holding only
interface 1 (flags `IFF_UP|IFF_BROADCAST|IFF_MULTICAST = 0x1043`),
mutated at the absent index 2. -/
theorem link_flags_not_found_no_io_witness :
    listener_set_link_flags [(1, 4163)] true 0 0 2 1 = (.error .notFound, [])
    ∧ listener_unset_link_flags [(1, 4163)] true 0 0 2 1 = (.error .notFound, []) :=
  link_flags_not_found_no_io [(1, 4163)] true 0 0 2 1 (by decide)
